import Mathlib

/-
Verification of the cat-searcher ingestion pipeline (api/check-cats.ts,
current iteration: pagination + age filter + duo filter).  The HTML/DOM
layer (cheerio) and the network are external collaborators: a page is
modelled as the results of the DOM queries the extractor performs, and
fetch/delivery outcomes are supplied by oracles.  Everything downstream of
those query results is translated directly from the TypeScript source.
-/

namespace CatSearcher

/-! ## Character and string utilities (ASCII models of the JS primitives) -/

/-- ASCII lowercase of one character, modelling String.prototype.toLowerCase
and the /i regex flag on the ASCII range used by the source's patterns. -/
def lcChar (c : Char) : Char :=
  if 'A' ≤ c ∧ c ≤ 'Z' then Char.ofNat (c.toNat + 32) else c

/-- Decimal digit test, modelling the regex \d class. -/
def isDigitCh (c : Char) : Bool := '0' ≤ c ∧ c ≤ '9'

/-- Whitespace test, modelling the regex \s class (common ASCII whitespace). -/
def isSpaceCh (c : Char) : Bool := c = ' ' ∨ c = '\t' ∨ c = '\n' ∨ c = '\r'

/-- Word-character test, modelling the regex \w class. -/
def isWordCh (c : Char) : Bool :=
  isDigitCh c ∨ ('a' ≤ c ∧ c ≤ 'z') ∨ ('A' ≤ c ∧ c ≤ 'Z') ∨ c = '_'

/-- Value of a (nonempty) digit run, modelling parseInt on a digit capture. -/
def natOfDigits (ds : List Char) : Nat :=
  ds.foldl (fun n c => n * 10 + (c.toNat - 48)) 0

/-- Literal-pattern test at the head of a character list. -/
def startsWithL : List Char → List Char → Bool
  | [], _ => true
  | _ :: _, [] => false
  | p :: ps, c :: cs => p = c && startsWithL ps cs

/-- Substring test (pattern occurs anywhere). -/
def containsSub (pat : List Char) : List Char → Bool
  | [] => startsWithL pat []
  | c :: cs => startsWithL pat (c :: cs) || containsSub pat cs

/-- String.prototype.trim over the modelled whitespace class. -/
def trimL (ls : List Char) : List Char :=
  (((ls.dropWhile isSpaceCh).reverse).dropWhile isSpaceCh).reverse

/-- String.prototype.trim on strings. -/
def trimStr (s : String) : String := String.mk (trimL s.data)

/-- String.prototype.replace with a plain-string pattern: replaces the first
occurrence only (deletion, since the source always replaces with ""). -/
def replaceFirstL (pat : List Char) : List Char → List Char
  | [] => []
  | c :: cs =>
    if startsWithL pat (c :: cs) then (c :: cs).drop pat.length
    else c :: replaceFirstL pat cs

/-- String.prototype.replace(pat, "") on strings (first occurrence). -/
def replaceFirstStr (s pat : String) : String :=
  String.mk (replaceFirstL pat.data s.data)

/-! ## Age parsing (extractCats, the regexes on the age text) -/

/-- Leftmost match of /(\d+)\s*TOK/ in an already-lowercased text, returning
the captured number.  Models age.match(/(\d+)\s*jaar/i) and .../maand/i. -/
def findNumTok (tok : List Char) : List Char → Option Nat
  | [] => none
  | c :: cs =>
    if isDigitCh c &&
        startsWithL tok (List.dropWhile isSpaceCh (List.dropWhile isDigitCh cs)) then
      some (natOfDigits (c :: List.takeWhile isDigitCh cs))
    else findNumTok tok cs

/-- Parse an age text into months, from extractCats: a year count (jaar)
contributes 12 per year, a month count (maand) is added when both occur,
a month count alone stands by itself, and anything else yields 0.  An empty
text is JS-falsy, so the whole parse block is skipped and 0 remains. -/
def parseAgeInMonths (age : String) : Nat :=
  if age = "" then 0
  else
    let ls := age.data.map lcChar
    match findNumTok "jaar".data ls, findNumTok "maand".data ls with
    | some y, some m => y * 12 + m
    | some y, none => y * 12
    | none, some m => m
    | none, none => 0

/-- Unit token accepted at a given position by /(jaar|maand|month|year)/i,
returning the matched token text (alternatives tried in source order). -/
def ageTokenAt (s : List Char) : Option (List Char) :=
  if startsWithL "jaar".data (s.map lcChar) then some (s.take 4)
  else if startsWithL "maand".data (s.map lcChar) then some (s.take 5)
  else if startsWithL "month".data (s.map lcChar) then some (s.take 5)
  else if startsWithL "year".data (s.map lcChar) then some (s.take 4)
  else none

/-- Leftmost match of /(\d+)\s*(jaar|maand|month|year)/i, returning the full
matched text.  Models the fallback that scans a card's text for an age. -/
def findAgeMatch : List Char → Option (List Char)
  | [] => none
  | c :: cs =>
    if isDigitCh c then
      match ageTokenAt (List.dropWhile isSpaceCh (List.dropWhile isDigitCh cs)) with
      | some tk =>
        some ((c :: List.takeWhile isDigitCh cs)
          ++ List.takeWhile isSpaceCh (List.dropWhile isDigitCh cs) ++ tk)
      | none => findAgeMatch cs
    else findAgeMatch cs

/-! ## Total count and pagination (extractTotalCats) -/

/-- Cats shown per page on the listing site (CATS_PER_PAGE). -/
def CATS_PER_PAGE : Nat := 16

/-- Digit-run parse used by the parseInt model; none when no leading digit. -/
def parseDigits (ls : List Char) : Option Nat :=
  match ls.takeWhile isDigitCh with
  | [] => none
  | ds => some (natOfDigits ds)

/-- JS parseInt on a string: skip leading whitespace, optional sign, then a
decimal digit run; none models NaN. -/
def parseIntJs (s : String) : Option Int :=
  match s.data.dropWhile isSpaceCh with
  | '-' :: rest => (parseDigits rest).map (fun n => -(n : Int))
  | '+' :: rest => (parseDigits rest).map (fun n => (n : Int))
  | ls => (parseDigits ls).map (fun n => (n : Int))

/-- Anchored test of /^(\d+)\s+katten?$/i on one element's trimmed text,
returning the captured count (the fallback scan in extractTotalCats). -/
def kattenCountMatch (s : String) : Option Nat :=
  let ls := s.data
  let ds := ls.takeWhile isDigitCh
  let rest := ls.dropWhile isDigitCh
  let sp := rest.takeWhile isSpaceCh
  let rest2 := rest.dropWhile isSpaceCh
  if ds ≠ [] ∧ sp ≠ [] ∧
      (rest2.map lcChar = "katte".data ∨ rest2.map lcChar = "katten".data) then
    some (natOfDigits ds)
  else none

/-- First span/div/p text whose trimmed content matches the count pattern
with a positive count; the source's each-loop breaks on the first hit. -/
def findKattenCount : List String → Option Nat
  | [] => none
  | t :: ts =>
    match kattenCountMatch (trimStr t) with
    | some c => if 0 < c then some c else findKattenCount ts
    | none => findKattenCount ts

/-- Pagination computation from extractTotalCats:
totalPages = totalCats > 0 ? Math.ceil(totalCats / CATS_PER_PAGE) : 1. -/
def calcTotalPages (totalCats : Int) : Nat :=
  if 0 < totalCats then (totalCats.toNat + CATS_PER_PAGE - 1) / CATS_PER_PAGE else 1

/-! ## Data model -/

/-- One listing record (interface Cat). -/
structure Cat where
  id : String
  name : String
  age : String
  ageInMonths : Nat
  imageUrl : String
  url : String
  description : String
deriving DecidableEq

/-- One anchor element produced by the cheerio selector
a[href*="/katten/"], abstracted as the results of the DOM queries
extractCats performs within the anchor's scope (cheerio itself is an
external collaborator).  Empty strings model JS-falsy absent values where
the source itself treats "" and absence alike. -/
structure Element where
  href : String
  headingText : String
  titleAttr : String
  ageClassText : Option String
  fullText : String
  imgSrc : String
  imgDataSrc : String
  hasImg : Bool
  descText : Option String
deriving DecidableEq

/-- Declared total and derived page count (interface PageInfo). -/
structure PageInfo where
  totalCats : Int
  totalPages : Nat
deriving DecidableEq

/-- First page's relevant DOM query results: the matching anchors, the
header counter text (trimmed, "" when the selection is empty) and the
texts of the span/div/p elements the fallback scan visits. -/
structure PageData where
  elements : List Element
  countText : String
  spanTexts : List String
deriving DecidableEq

/-- Site origin used to absolutize relative URLs. -/
def SITE : String := "https://www.adopteereendier.be"

/-! ## Record extraction (extractCats) -/

/-- Match of /\/katten\/(\d+)(?:\/([^/?]+))?/ at one position: the literal
segment, a digit run (the id), then optionally a slash and a nonempty slug
of characters other than a slash or question mark. -/
def parseKattenAt (ls : List Char) : Option (String × String) :=
  if startsWithL "/katten/".data ls then
    let rest := ls.drop 8
    match rest.takeWhile isDigitCh with
    | [] => none
    | ds =>
      match rest.dropWhile isDigitCh with
      | '/' :: r3 =>
        match r3.takeWhile (fun c => c ≠ '/' ∧ c ≠ '?') with
        | [] => some (String.mk ds, "")
        | slug => some (String.mk ds, String.mk slug)
      | _ => some (String.mk ds, "")
  else none

/-- Leftmost match of the href pattern (id, nameSlug); slug "" models the
JS nameSlug = match[2] || "". -/
def parseKattenHrefL : List Char → Option (String × String)
  | [] => none
  | c :: cs =>
    match parseKattenAt (c :: cs) with
    | some r => some r
    | none => parseKattenHrefL cs

/-- Href parse entry point used on each anchor. -/
def parseKattenHref (s : String) : Option (String × String) := parseKattenHrefL s.data

/-- Record construction for one anchor, translating the field fallbacks of
extractCats: heading text, else title attribute, else "Cat id"; age-class
element text, else the age regex over the card text; image src, else
data-src, absolutized when relative; description element text, else the
card text with the name and age substrings removed (first occurrences) and
trimmed; canonical detail URL rebuilt from the id and slug. -/
def buildCat (e : Element) (id slug : String) : Cat :=
  let name0 := e.headingText
  let name := if name0 ≠ "" then name0
    else if e.titleAttr ≠ "" then e.titleAttr else "Cat " ++ id
  let age := match e.ageClassText with
    | some t => t
    | none =>
      match findAgeMatch e.fullText.data with
      | some m => String.mk m
      | none => ""
  let ageInMonths := parseAgeInMonths age
  let imageUrl0 := if e.hasImg then (if e.imgSrc ≠ "" then e.imgSrc else e.imgDataSrc) else ""
  let imageUrl :=
    if imageUrl0 ≠ "" ∧ ¬ startsWithL "http".data imageUrl0.data
    then SITE ++ imageUrl0 else imageUrl0
  let description := match e.descText with
    | some t => t
    | none => trimStr (replaceFirstStr (replaceFirstStr e.fullText name) age)
  let url := if slug ≠ "" then SITE ++ "/katten/" ++ id ++ "/" ++ slug
    else SITE ++ "/katten/" ++ id
  { id := id
    name := if name ≠ "" then name else "Cat " ++ id
    age := if age ≠ "" then age else "Unknown"
    ageInMonths := ageInMonths
    imageUrl := imageUrl
    url := url
    description := description }

/-- Main extraction loop over the selected anchors: skip anchors whose href
does not parse and anchors whose id was already collected, otherwise append
the built record. -/
def extractLoop : List Element → List Cat → List Cat
  | [], acc => acc
  | e :: es, acc =>
    match parseKattenHref e.href with
    | none => extractLoop es acc
    | some (id, slug) =>
      if acc.any (fun c => c.id == id) then extractLoop es acc
      else extractLoop es (acc ++ [buildCat e id slug])

/-- Keep-first dedupe by id, modelling
cats.filter((cat, index, self) => self.findIndex(c => c.id === cat.id) === index). -/
def dedupeGo (seen : List String) : List Cat → List Cat
  | [] => []
  | c :: cs => if seen.contains c.id then dedupeGo seen cs else c :: dedupeGo (c.id :: seen) cs

/-- Entry point of the keep-first dedupe. -/
def dedupeKeepFirst (cats : List Cat) : List Cat := dedupeGo [] cats

/-- Record extraction for one page (extractCats): loop over the selected
anchors, then the (redundant) keep-first dedupe. -/
def extractCats (els : List Element) : List Cat := dedupeKeepFirst (extractLoop els [])

/-- Total count and page count extraction (extractTotalCats): header
counter via parseInt, else first positive "N katten" element, else 0. -/
def extractTotalCats (pd : PageData) : PageInfo :=
  let fromHeader : Int :=
    if pd.countText ≠ "" then
      match parseIntJs pd.countText with
      | some n => n
      | none => 0
    else 0
  let totalCats : Int :=
    if fromHeader = 0 then
      match findKattenCount pd.spanTexts with
      | some c => (c : Int)
      | none => 0
    else fromHeader
  { totalCats := totalCats, totalPages := calcTotalPages totalCats }

/-! ## Grouped-adoption detection (isDuoAdoption)

Each fixed regex of the source is translated into a dedicated scanning
function over the lowercased text (the source lowercases name+description,
and every pattern carries the /i flag). -/

/-- Word-boundary test for the position before a match: start of input or a
preceding non-word character (patterns all start with a word character). -/
def boundaryBefore : Option Char → Bool
  | none => true
  | some c => ¬ isWordCh c

/-- Word-boundary test after a match: end of input or a non-word character. -/
def boundaryAfter : List Char → Bool
  | [] => true
  | c :: _ => ¬ isWordCh c

/-- Literal phrase at the head of the input followed by a word boundary. -/
def phraseHere (phrase : List Char) (s : List Char) : Bool :=
  startsWithL phrase s && boundaryAfter (s.drop phrase.length)

/-- Scan of the input for a position with a word boundary before it where
the given head test fires; prev is the character before the position. -/
def scanBounded (here : List Char → Bool) : Option Char → List Char → Bool
  | _, [] => false
  | prev, c :: cs => (boundaryBefore prev && here (c :: cs)) || scanBounded here (some c) cs

/-- Test of a word-bounded literal phrase anywhere in the input,
modelling /\bphrase\b/i patterns such as alleen samen and koppel. -/
def testWordPhrase (phrase : List Char) (s : List Char) : Bool :=
  scanBounded (phraseHere phrase) none s

/-- Tail of the duo pattern: adopti[ef]\b. -/
def adoptiEFHere : List Char → Bool
  | 'a' :: 'd' :: 'o' :: 'p' :: 't' :: 'i' :: c :: rest =>
    (c = 'e' ∨ c = 'f') ∧ boundaryAfter rest
  | _ => false

/-- Head test of /\bduo[\s-]?adopti[ef]\b/i at one position. -/
def duoAdoptiHere (s : List Char) : Bool :=
  startsWithL "duo".data s &&
    (match s.drop 3 with
     | c :: rest => if isSpaceCh c ∨ c = '-' then adoptiEFHere rest else adoptiEFHere (c :: rest)
     | [] => false)

/-- Suffix test [\s\w]*samen\b used by the sibling pattern. -/
def samenAfter : List Char → Bool
  | [] => false
  | c :: cs => phraseHere "samen".data (c :: cs) || ((isSpaceCh c || isWordCh c) && samenAfter cs)

/-- Head test of /\b(broer|zus)[\s\w]*samen\b/i at one position. -/
def broerZusSamenHere (s : List Char) : Bool :=
  (startsWithL "broer".data s && samenAfter (s.drop 5)) ||
  (startsWithL "zus".data s && samenAfter (s.drop 3))

/-- Dot test of the regex . without the s flag: any character except a line
terminator. -/
def isDotCh (c : Char) : Bool := c ≠ '\n' ∧ c ≠ '\r'

/-- Suffix test .*\b(adopteren|adoptie)\b with prev the last character
consumed so far. -/
def adoptAfter : Option Char → List Char → Bool
  | _, [] => false
  | prev, c :: cs =>
    (boundaryBefore prev &&
      (phraseHere "adopteren".data (c :: cs) || phraseHere "adoptie".data (c :: cs)))
    || (isDotCh c && adoptAfter (some c) cs)

/-- Head test of /\b(broer|zus)\b.*\b(adopteren|adoptie)\b/i at one
position; the boundary after the sibling word is checked before the dot
scan starts, and the scan's prev is that word's last letter. -/
def broerZusAdoptHere (s : List Char) : Bool :=
  (startsWithL "broer".data s && boundaryAfter (s.drop 5) && adoptAfter (some 'r') (s.drop 5)) ||
  (startsWithL "zus".data s && boundaryAfter (s.drop 3) && adoptAfter (some 's') (s.drop 3))

/-- Test of /\([^)]*duo[^)]*\)/i on the (lowercased) name: an opening
parenthesis whose first following closing parenthesis exists and whose
enclosed text contains duo. -/
def parenDuoTest : List Char → Bool
  | [] => false
  | '(' :: rest =>
    (containsSub "duo".data (rest.takeWhile (fun c => c ≠ ')')) &&
      (rest.dropWhile (fun c => c ≠ ')')) ≠ [])
    || parenDuoTest rest
  | _ :: rest => parenDuoTest rest

/-- Tail test of the co-occurrence marker after the & or en token:
\s+[^)]+\) , equivalently a whitespace character followed by a first
closing parenthesis that exists and is at least two characters away. -/
def enAmpTail : List Char → Bool
  | [] => false
  | c :: cs =>
    isSpaceCh c && (cs.takeWhile (fun x => x ≠ ')')) ≠ [] &&
      (cs.dropWhile (fun x => x ≠ ')')) ≠ []

/-- Test of /\(\s*(&|en)\s+[^)]+\)/i on the (lowercased) name: the
parenthetical co-occurrence marker "(and Y)" / "(& Y)". -/
def parenEnAmpTest : List Char → Bool
  | [] => false
  | '(' :: rest =>
    (match rest.dropWhile isSpaceCh with
     | '&' :: r3 => enAmpTail r3
     | 'e' :: 'n' :: r3 => enAmpTail r3
     | _ => false)
    || parenEnAmpTest rest
  | _ :: rest => parenEnAmpTest rest

/-- Lowercased name+description text the keyword patterns run on
(nameAndDesc in the source). -/
def nameAndDescOf (cat : Cat) : List Char :=
  (cat.name ++ " " ++ cat.description).data.map lcChar

/-- Lowercased name the parenthetical patterns run on. -/
def lowerNameOf (cat : Cat) : List Char := cat.name.data.map lcChar

/-- Disjunction of the fixed keyword patterns (duoPatterns then
relationshipPatterns, in source order) over name+description. -/
def duoKeywordMatch (nameAndDesc : List Char) : Bool :=
  scanBounded duoAdoptiHere none nameAndDesc
  || testWordPhrase "duoadoptie".data nameAndDesc
  || testWordPhrase "alleen samen".data nameAndDesc
  || testWordPhrase "samen geadopteerd".data nameAndDesc
  || testWordPhrase "moeten samen".data nameAndDesc
  || testWordPhrase "koppel".data nameAndDesc
  || scanBounded broerZusSamenHere none nameAndDesc
  || testWordPhrase "samen met zijn broer".data nameAndDesc
  || testWordPhrase "samen met zijn zus".data nameAndDesc
  || testWordPhrase "samen met haar broer".data nameAndDesc
  || testWordPhrase "samen met haar zus".data nameAndDesc
  || scanBounded broerZusAdoptHere none nameAndDesc

/-- Grouped-adoption predicate (isDuoAdoption): keyword patterns over
name+description, then the parenthetical duo pattern and the parenthetical
co-occurrence marker over the name; first match wins. -/
def isDuoAdoption (cat : Cat) : Bool :=
  duoKeywordMatch (nameAndDescOf cat)
  || parenDuoTest (lowerNameOf cat)
  || parenEnAmpTest (lowerNameOf cat)

/-! ## Novelty store (Redis set keyed by the URL hash)

The store behind kv is modelled as the one set the run's key names: its
members and the key's remaining time-to-live as last set by expire.  The
key derivation (md5 of CHECK_URL) only namespaces the set and is not
load-bearing for the claims. -/

/-- State of the seen set for the run's Redis key. -/
structure Store where
  seen : List String
  ttlSeconds : Option Nat
deriving DecidableEq

/-- Redis SADD of a batch: insert each id not already present, in order. -/
def saddList (s : List String) (ids : List String) : List String :=
  ids.foldl (fun acc i => if acc.contains i then acc else acc ++ [i]) s

/-- Expiration applied after every non-empty write: 90 days in seconds. -/
def EXPIRE_SECONDS : Nat := 90 * 24 * 60 * 60

/-- persistCatIds: an empty id list returns before touching the store;
otherwise one SADD batch of all ids followed by expire(90 days). -/
def persistCatIds (catIds : List String) (store : Store) : Store :=
  if catIds = [] then store
  else { seen := saddList store.seen catIds, ttlSeconds := some EXPIRE_SECONDS }

/-- getNewCats: one SISMEMBER probe per record, keeping the records whose
id is not yet in the seen set (order preserved, no mutation). -/
def getNewCats (cats : List Cat) (store : Store) : List Cat :=
  cats.filter (fun c => ! store.seen.contains c.id)

/-! ## Notifier (notifyTelegram, per-record messages)

Delivery outcomes are supplied by an oracle indexed by message position.
The notifier's observable behavior is its event trace: one attempt event
per message sent, the rate-limit sleeps, and the overflow summary. -/

/-- Outcome of one Telegram send: 2xx response, non-2xx response (logged,
loop continues), or a thrown error (caught, loop continues). -/
inductive DeliverOutcome where
  | delivered
  | httpError
  | thrown
deriving DecidableEq

/-- Observable notifier events. -/
inductive NotifyEvent where
  | attempt (catId : String) (outcome : DeliverOutcome)
  | slept (ms : Nat)
  | summaryAttempt (remaining : Nat)
deriving DecidableEq

/-- Cap on per-record messages per run (MAX_CATS_TO_NOTIFY). -/
def MAX_CATS_TO_NOTIFY : Nat := 30

/-- Per-record send loop: every record gets exactly one send attempt; a
thrown error skips the 500 ms rate-limit sleep (it sits at the end of the
try block), a response of either kind is followed by it; no outcome stops
the loop. -/
def notifyGo (deliver : Nat → DeliverOutcome) : Nat → List Cat → List NotifyEvent
  | _, [] => []
  | idx, c :: cs =>
    match deliver idx with
    | .thrown => .attempt c.id .thrown :: notifyGo deliver (idx + 1) cs
    | o => .attempt c.id o :: .slept 500 :: notifyGo deliver (idx + 1) cs

/-- notifyTelegram: send one message per record for the first
MAX_CATS_TO_NOTIFY records, then a summary message when records remain.
The retryCount parameter of the source is never consulted in this
iteration: no send is retried. -/
def notifyTelegram (deliver : Nat → DeliverOutcome) (newCats : List Cat) : List NotifyEvent :=
  let catsToNotify := newCats.take MAX_CATS_TO_NOTIFY
  let remainingCount := newCats.length - catsToNotify.length
  notifyGo deliver 0 catsToNotify ++
    (if 0 < remainingCount then [.summaryAttempt remainingCount] else [])

/-- Ids of the records a notifier trace attempted to deliver, in order. -/
def attemptIds (evs : List NotifyEvent) : List String :=
  evs.filterMap (fun e =>
    match e with
    | .attempt id _ => some id
    | _ => none)

/-! ## Fetching and the pipeline orchestrator (handler) -/

/-- Result of one fetch attempt of one page: a parsed page, a transient
failure (AbortError / network error whose message contains fetch), or a
non-retried failure (a thrown HTTP-status error). -/
inductive FetchResult where
  | ok (page : PageData)
  | transientErr
  | fatalErr

/-- External world of one run: fetch outcome per (page, attempt index) and
delivery outcome per message index. -/
structure Env where
  fetchAttempt : Nat → Nat → FetchResult
  deliver : Nat → DeliverOutcome

/-- fetchListing with retryCount = 1: one attempt; on a transient failure
one retry (after a 2 s sleep); a second failure of either kind, or an
immediate fatal failure, propagates (none). -/
def fetchListing (env : Env) (page : Nat) : Option PageData :=
  match env.fetchAttempt page 0 with
  | .ok p => some p
  | .fatalErr => none
  | .transientErr =>
    match env.fetchAttempt page 1 with
    | .ok p => some p
    | _ => none

/-- Sequential fetch of the listed pages; the first failure aborts the
whole sequence (the handler's page loop has no try/catch, so the thrown
error propagates). -/
def fetchSeq (env : Env) : List Nat → Option (List PageData)
  | [] => some []
  | p :: ps =>
    match fetchListing env p with
    | none => none
    | some pg =>
      match fetchSeq env ps with
      | none => none
      | some rest => some (pg :: rest)

/-- Minimum eligible age in months (MIN_AGE_MONTHS). -/
def MIN_AGE_MONTHS : Nat := 6

/-- Age predicate of the eligibility filter: cat.ageInMonths >= MIN_AGE_MONTHS. -/
def agePred (c : Cat) : Bool := MIN_AGE_MONTHS ≤ c.ageInMonths

/-- FILTER_DUO_ADOPTIONS defaults to true (env toggle). -/
def FILTER_DUO_ADOPTIONS : Bool := true

/-- Eligibility filtering of the handler: age filter, then (when enabled)
the grouped-adoption filter. -/
def eligibleOf (uniqueCats : List Cat) : List Cat :=
  let cats1 := uniqueCats.filter agePred
  if FILTER_DUO_ADOPTIONS then cats1.filter (fun c => ! isDuoAdoption c) else cats1

/-- Steps 1 and 2 of the handler: fetch page 1, derive the page count,
fetch pages 2..totalPages, merge all extracted records, dedupe by id and
filter; none when any fetch fails (the error propagates to the handler's
top-level catch). -/
def collectCats (env : Env) : Option (PageInfo × List Cat) :=
  match fetchListing env 1 with
  | none => none
  | some firstPage =>
    let pageInfo := extractTotalCats firstPage
    let firstPageCats := extractCats firstPage.elements
    match fetchSeq env (List.range' 2 (pageInfo.totalPages - 1)) with
    | none => none
    | some pages =>
      let allCats := firstPageCats ++ (pages.map (fun p => extractCats p.elements)).flatten
      some (pageInfo, eligibleOf (dedupeKeepFirst allCats))

/-- Response body of one run (the JSON the handler returns; fields the
source omits on a branch are modelled as none / false). -/
structure RunResult where
  status : Nat
  ok : Bool
  found : Nat
  newCount : Nat
  warning : Bool
  totalCats : Option Int
  totalPages : Option Nat
deriving DecidableEq

/-- The handler's catch-all result: status 500 with a structured error body. -/
def errorResult : RunResult :=
  { status := 500, ok := false, found := 0, newCount := 0, warning := false
    totalCats := none, totalPages := none }

/-- Observable outcome of one run: the response, the store afterwards, and
the notifier's event trace. -/
structure HandlerOut where
  result : RunResult
  store : Store
  notifyTrace : List NotifyEvent
deriving DecidableEq

/-- The pipeline orchestrator (handler), from after the secret check to
the response: collect and filter records; zero eligible records is a 200
with a warning and no store access; otherwise probe novelty, and when new
records exist notify (whatever the delivery outcomes) and then persist
their ids; any fetch failure lands in the catch and yields errorResult
with the store untouched. -/
def handlerModel (env : Env) (store : Store) : HandlerOut :=
  match collectCats env with
  | none => ⟨errorResult, store, []⟩
  | some (pageInfo, cats) =>
    if cats = [] then
      ⟨{ status := 200, ok := true, found := 0, newCount := 0, warning := true
         totalCats := none, totalPages := none }, store, []⟩
    else
      let newCats := getNewCats cats store
      if newCats = [] then
        ⟨{ status := 200, ok := true, found := cats.length, newCount := 0, warning := false
           totalCats := some pageInfo.totalCats, totalPages := some pageInfo.totalPages },
         store, []⟩
      else
        ⟨{ status := 200, ok := true, found := cats.length, newCount := newCats.length
           warning := false, totalCats := some pageInfo.totalCats
           totalPages := some pageInfo.totalPages },
         persistCatIds (newCats.map (fun c => c.id)) store,
         notifyTelegram env.deliver newCats⟩

/-! ## Fixtures and derived definitions used by the theorems -/

/-- First anchor in document order whose href resolves to the given id,
together with the slug that anchor's href carries. -/
def firstParsedAnchor (id : String) : List Element → Option (Element × String)
  | [] => none
  | e :: es =>
    match parseKattenHref e.href with
    | some (i, slug) => if i = id then some (e, slug) else firstParsedAnchor id es
    | none => firstParsedAnchor id es

/-- Anchor fixtures: two hrefs resolving to the same id 101. -/
def elC9a : Element :=
  { href := "/katten/101/mia", headingText := "Mia", titleAttr := ""
    ageClassText := some "2 jaar", fullText := "", imgSrc := "", imgDataSrc := ""
    hasImg := false, descText := none }

/-- Second anchor fixture for the same record id. -/
def elC9b : Element :=
  { href := "/katten/101/mia-oud", headingText := "Mia (oud)", titleAttr := ""
    ageClassText := none, fullText := "", imgSrc := "", imgDataSrc := ""
    hasImg := false, descText := none }

/-- Record fixture with unparsable age text. -/
def catUnparsable : Cat :=
  { id := "7", name := "Nel", age := "onbekend", ageInMonths := parseAgeInMonths "onbekend"
    imageUrl := "", url := "", description := "" }

/-- Record fixture whose name carries the "(en Y)" co-occurrence marker
and whose description is unrelated. -/
def catBoris : Cat :=
  { id := "11", name := "Boris (en Bella)", age := "", ageInMonths := 24
    imageUrl := "", url := "", description := "een hele lieve kater" }

/-- Record fixture with no marker and no keyword match. -/
def catLuna : Cat :=
  { id := "12", name := "Luna", age := "", ageInMonths := 24
    imageUrl := "", url := "", description := "een lieve kat, speels en zacht" }

/-- Store fixture with one member and a partly elapsed TTL. -/
def storeC10 : Store := { seen := ["42"], ttlSeconds := some 12345 }

/-- Anchor fixture for the re-run scenario. -/
def elC2 : Element :=
  { href := "/katten/77/kitty", headingText := "Kitty", titleAttr := ""
    ageClassText := some "2 jaar", fullText := "", imgSrc := "", imgDataSrc := ""
    hasImg := false, descText := none }

/-- Page fixture: one record, no declared total (single page). -/
def pageC2 : PageData := { elements := [elC2], countText := "", spanTexts := [] }

/-- Environment fixture: every fetch returns the same page. -/
def envC2 : Env :=
  { fetchAttempt := fun _ _ => FetchResult.ok pageC2
    deliver := fun _ => DeliverOutcome.delivered }

/-- Empty store fixture for the first run. -/
def storeC2 : Store := { seen := [], ttlSeconds := none }

/-- Expected page info for the fixture. -/
def pC2 : PageInfo := { totalCats := 0, totalPages := 1 }

/-- Expected eligible record set for the fixture. -/
def catsC2 : List Cat := [buildCat elC2 "77" "kitty"]

/-- Environment fixture whose every fetch attempt fails fatally. -/
def envC3 : Env :=
  { fetchAttempt := fun _ _ => FetchResult.fatalErr
    deliver := fun _ => DeliverOutcome.delivered }

/-- Non-trivial store fixture to exhibit that nothing is written. -/
def storeC3 : Store := { seen := ["8"], ttlSeconds := some 77 }

/-- Anchor fixture present on the first page of the aborting run. -/
def elC1 : Element :=
  { href := "/katten/201/felix", headingText := "Felix", titleAttr := ""
    ageClassText := some "2 jaar", fullText := "", imgSrc := "", imgDataSrc := ""
    hasImg := false, descText := none }

/-- First-page fixture declaring 60 records (4 pages). -/
def pageC1 : PageData := { elements := [elC1], countText := "60", spanTexts := [] }

/-- Environment fixture: page 1 succeeds, every later page fails. -/
def envC1 : Env :=
  { fetchAttempt := fun page _ => if page = 1 then FetchResult.ok pageC1 else FetchResult.fatalErr
    deliver := fun _ => DeliverOutcome.delivered }

/-- Empty store fixture for the aborting run. -/
def storeC1 : Store := { seen := [], ttlSeconds := none }

/-- Anchor fixture for the failing-delivery run. -/
def elC7 : Element :=
  { href := "/katten/301/nora", headingText := "Nora", titleAttr := ""
    ageClassText := some "8 maanden", fullText := "", imgSrc := "", imgDataSrc := ""
    hasImg := false, descText := none }

/-- Single-page fixture for the failing-delivery run. -/
def pageC7 : PageData := { elements := [elC7], countText := "", spanTexts := [] }

/-- Environment fixture in which every Telegram send throws. -/
def envC7 : Env :=
  { fetchAttempt := fun _ _ => FetchResult.ok pageC7
    deliver := fun _ => DeliverOutcome.thrown }

/-- Empty store fixture for the failing-delivery run. -/
def storeC7 : Store := { seen := [], ttlSeconds := none }

/-- Expected page info for the failing-delivery fixture. -/
def pC7 : PageInfo := { totalCats := 0, totalPages := 1 }

/-- Expected eligible record set for the failing-delivery fixture. -/
def catsC7 : List Cat := [buildCat elC7 "301" "nora"]

/-- Record fixture for a message whose send throws a transient error. -/
def catC8 : Cat :=
  { id := "555", name := "Pip", age := "1 jaar", ageInMonths := 12
    imageUrl := "", url := "", description := "" }

/-! ## Claim C9: duplicate anchors collapse, first occurrence wins -/

theorem buildCat_id (e : Element) (id slug : String) : (buildCat e id slug).id = id := rfl

theorem any_id_eq_false_iff (acc : List Cat) (id : String) :
    acc.any (fun c => c.id == id) = false ↔ ∀ c ∈ acc, c.id ≠ id := by
  rw [← Bool.not_eq_true, List.any_eq_true]
  simp

theorem contains_eq_false_iff (l : List String) (a : String) :
    l.contains a = false ↔ a ∉ l := by
  rw [← Bool.not_eq_true]
  exact not_congr List.elem_iff

theorem filter_id_eq_nil {acc : List Cat} {id : String}
    (h : ∀ c ∈ acc, c.id ≠ id) : acc.filter (fun c => c.id == id) = [] := by
  rw [List.filter_eq_nil_iff]
  intro c hc
  simp only [beq_iff_eq]
  exact h c hc

theorem extractLoop_filter_stable (id : String) :
    ∀ (els : List Element) (acc : List Cat),
      acc.any (fun c => c.id == id) = true →
      (extractLoop els acc).filter (fun c => c.id == id)
        = acc.filter (fun c => c.id == id) := by
  intro els
  induction els with
  | nil => intro acc _; rfl
  | cons e es ih =>
    intro acc h
    cases hp : parseKattenHref e.href with
    | none =>
      simp only [extractLoop, hp]
      exact ih acc h
    | some r =>
      obtain ⟨i, slug⟩ := r
      simp only [extractLoop, hp]
      by_cases hi : acc.any (fun c => c.id == i) = true
      · rw [if_pos hi]
        exact ih acc h
      · rw [if_neg hi]
        have hine : i ≠ id := by
          intro he
          subst he
          exact hi h
        have hkeep : (acc ++ [buildCat e i slug]).any (fun c => c.id == id) = true := by
          rw [List.any_append, h, Bool.true_or]
        rw [ih (acc ++ [buildCat e i slug]) hkeep, List.filter_append]
        have hb : [buildCat e i slug].filter (fun c => c.id == id) = [] := by
          apply filter_id_eq_nil
          intro c hc
          rw [List.mem_singleton] at hc
          subst hc
          rw [buildCat_id]
          exact hine
        rw [hb, List.append_nil]

theorem extractLoop_filter_first (id : String) (e : Element) (slug : String) :
    ∀ (els : List Element) (acc : List Cat),
      firstParsedAnchor id els = some (e, slug) →
      acc.any (fun c => c.id == id) = false →
      (extractLoop els acc).filter (fun c => c.id == id) = [buildCat e id slug] := by
  intro els
  induction els with
  | nil =>
    intro acc h _
    exact absurd h (by simp [firstParsedAnchor])
  | cons e' es ih =>
    intro acc hfirst hacc
    cases hp : parseKattenHref e'.href with
    | none =>
      simp only [firstParsedAnchor, hp] at hfirst
      simp only [extractLoop, hp]
      exact ih acc hfirst hacc
    | some r =>
      obtain ⟨i, slug'⟩ := r
      simp only [firstParsedAnchor, hp] at hfirst
      simp only [extractLoop, hp]
      by_cases hid : i = id
      · subst hid
        rw [if_pos rfl] at hfirst
        have hpair := Option.some.inj hfirst
        have he : e' = e := congrArg Prod.fst hpair
        have hs : slug' = slug := congrArg Prod.snd hpair
        rw [← he, ← hs]
        rw [if_neg (by rw [hacc]; exact Bool.false_ne_true)]
        have hkeep : (acc ++ [buildCat e' i slug']).any (fun c => c.id == i) = true := by
          rw [List.any_append]
          simp [buildCat_id]
        rw [extractLoop_filter_stable i es _ hkeep, List.filter_append]
        have hnil : acc.filter (fun c => c.id == i) = [] :=
          filter_id_eq_nil ((any_id_eq_false_iff acc i).1 hacc)
        rw [hnil, List.nil_append]
        simp [buildCat_id]
      · rw [if_neg hid] at hfirst
        by_cases hi : acc.any (fun c => c.id == i) = true
        · rw [if_pos hi]
          exact ih acc hfirst hacc
        · rw [if_neg hi]
          apply ih (acc ++ [buildCat e' i slug']) hfirst
          rw [List.any_append, hacc, Bool.false_or]
          simp [buildCat_id]
          exact hid

theorem extractLoop_nodup :
    ∀ (els : List Element) (acc : List Cat),
      ((acc.map (fun c => c.id)).Nodup) →
      (((extractLoop els acc).map (fun c => c.id)).Nodup) := by
  intro els
  induction els with
  | nil => intro acc h; exact h
  | cons e es ih =>
    intro acc h
    cases hp : parseKattenHref e.href with
    | none =>
      simp only [extractLoop, hp]
      exact ih acc h
    | some r =>
      obtain ⟨i, slug⟩ := r
      simp only [extractLoop, hp]
      by_cases hi : acc.any (fun c => c.id == i) = true
      · rw [if_pos hi]
        exact ih acc h
      · rw [if_neg hi]
        apply ih (acc ++ [buildCat e i slug])
        rw [List.map_append]
        have hnotin : i ∉ acc.map (fun c => c.id) := by
          intro hm
          obtain ⟨c, hc, hci⟩ := List.mem_map.1 hm
          exact ((any_id_eq_false_iff acc i).1 (Bool.eq_false_iff.2 hi)) c hc hci
        apply List.Nodup.append h (by simp)
        intro a ha hb
        simp only [List.map_cons, List.map_nil, List.mem_singleton, buildCat_id] at hb
        subst hb
        exact hnotin ha

theorem dedupeGo_eq_self :
    ∀ (l : List Cat) (seen : List String),
      ((l.map (fun c => c.id)).Nodup) →
      (∀ c ∈ l, c.id ∉ seen) →
      dedupeGo seen l = l := by
  intro l
  induction l with
  | nil => intro seen _ _; rfl
  | cons c cs ih =>
    intro seen hnd hs
    unfold dedupeGo
    have hc : seen.contains c.id = false :=
      (contains_eq_false_iff seen c.id).2 (hs c (List.mem_cons_self c cs))
    rw [hc]
    simp only [Bool.false_eq_true, if_false]
    rw [List.map_cons, List.nodup_cons] at hnd
    rw [ih (c.id :: seen) hnd.2]
    intro d hd
    rw [List.mem_cons, not_or]
    constructor
    · intro he
      exact hnd.1 (he ▸ List.mem_map_of_mem (fun x => x.id) hd)
    · exact hs d (List.mem_cons_of_mem c hd)

/-- C9: for every input page, anchors resolving to the same numeric id
collapse to exactly one record taken from the first such anchor in
document order, and consequently all ids in the extractor's output are
pairwise distinct. -/
theorem extract_ids_distinct_first_wins (els : List Element) :
    ((extractCats els).map (fun c => c.id)).Nodup
    ∧ (∀ id e slug, firstParsedAnchor id els = some (e, slug) →
        (extractCats els).filter (fun c => c.id == id) = [buildCat e id slug]) := by
  have hn : ((extractLoop els []).map (fun c => c.id)).Nodup :=
    extractLoop_nodup els [] (by simp)
  have hd : dedupeKeepFirst (extractLoop els []) = extractLoop els [] :=
    dedupeGo_eq_self _ [] hn (by simp)
  constructor
  · rw [extractCats, hd]
    exact hn
  · intro id e slug hfirst
    rw [extractCats, hd]
    exact extractLoop_filter_first id e slug els [] hfirst rfl

/-- C9 witness: with two same-id anchors the output holds exactly one
record for id 101, built from the first anchor, with distinct ids. -/
theorem extract_ids_distinct_first_wins_witness :
    firstParsedAnchor "101" [elC9a, elC9b] = some (elC9a, "mia")
    ∧ (extractCats [elC9a, elC9b]).filter (fun c => c.id == "101")
        = [buildCat elC9a "101" "mia"]
    ∧ ((extractCats [elC9a, elC9b]).map (fun c => c.id)).Nodup :=
  ⟨by decide,
   (extract_ids_distinct_first_wins [elC9a, elC9b]).2 "101" elC9a "mia" (by decide),
   (extract_ids_distinct_first_wins [elC9a, elC9b]).1⟩

/-! ## Claim C4: pagination planning -/

/-- C4: for every declared total count, the planner computes
totalPages = max(1, ceil(totalCount / pageSize)); in particular a total
of 60 with page size 16 yields 4 pages and a total of 0 yields 1 page
(the latter two checked through extractTotalCats itself). -/
theorem pagination_planner_correct :
    (∀ n : Nat, calcTotalPages (n : Int) = max 1 ((n + CATS_PER_PAGE - 1) / CATS_PER_PAGE))
    ∧ calcTotalPages 60 = 4
    ∧ (extractTotalCats { elements := [], countText := "60", spanTexts := [] }).totalPages = 4
    ∧ (extractTotalCats { elements := [], countText := "", spanTexts := [] }).totalPages = 1 := by
  refine ⟨fun n => ?_, by decide, by decide, by decide⟩
  unfold calcTotalPages CATS_PER_PAGE
  rcases Nat.eq_zero_or_pos n with h | h
  · subst h; decide
  · rw [if_pos (by exact_mod_cast h), Int.toNat_natCast]
    omega

/-! ## Claim C5: age parsing and the default age filter -/

/-- C5: a year count and a month count in one text sum to 12*years+months
("1 jaar 3 maanden" gives 15), a month count alone stands ("5 maanden"
gives 5), a text matching neither recognized token parses to 0 months, and
a record with 0 months fails the default age predicate (minimum 6). -/
theorem age_parsing_correct :
    parseAgeInMonths "1 jaar 3 maanden" = 15
    ∧ parseAgeInMonths "5 maanden" = 5
    ∧ (∀ s : String,
        findNumTok "jaar".data (s.data.map lcChar) = none →
        findNumTok "maand".data (s.data.map lcChar) = none →
        parseAgeInMonths s = 0)
    ∧ (∀ c : Cat, c.ageInMonths = 0 → agePred c = false) := by
  refine ⟨by decide, by decide, fun s hj hm => ?_, fun c hc => ?_⟩
  · unfold parseAgeInMonths
    by_cases hs : s = ""
    · rw [if_pos hs]
    · rw [if_neg hs]
      simp only [hj, hm]
  · simp [agePred, hc, MIN_AGE_MONTHS]

/-- C5 witness: the hypotheses hold at the concrete text "onbekend" and
the concrete record built from it. -/
theorem age_parsing_correct_witness :
    (findNumTok "jaar".data ("onbekend".data.map lcChar) = none
      ∧ findNumTok "maand".data ("onbekend".data.map lcChar) = none
      ∧ catUnparsable.ageInMonths = 0)
    ∧ parseAgeInMonths "onbekend" = 0
    ∧ agePred catUnparsable = false :=
  ⟨⟨by decide, by decide, by decide⟩,
   age_parsing_correct.2.2.1 "onbekend" (by decide) (by decide),
   age_parsing_correct.2.2.2 catUnparsable (by decide)⟩

/-! ## Claim C6: grouped-adoption detection -/

/-- C6: a name containing the parenthetical co-occurrence marker
"(and Y)" / "(& Y)" / "(en Y)" is flagged as grouped whatever the
description holds, and a record matching neither the marker nor any of the
fixed keyword patterns (over name and description) is not flagged. -/
theorem duo_marker_detection :
    (∀ c : Cat, parenEnAmpTest (lowerNameOf c) = true → isDuoAdoption c = true)
    ∧ (∀ c : Cat,
        duoKeywordMatch (nameAndDescOf c) = false →
        parenDuoTest (lowerNameOf c) = false →
        parenEnAmpTest (lowerNameOf c) = false →
        isDuoAdoption c = false) := by
  constructor
  · intro c h
    unfold isDuoAdoption
    rw [h]
    simp
  · intro c h1 h2 h3
    unfold isDuoAdoption
    rw [h1, h2, h3]
    rfl

/-- C6 witness: the marker fires on "Boris (en Bella)" regardless of its
description, and "Luna" with a plain description is not flagged. -/
theorem duo_marker_detection_witness :
    (parenEnAmpTest (lowerNameOf catBoris) = true ∧ isDuoAdoption catBoris = true)
    ∧ (duoKeywordMatch (nameAndDescOf catLuna) = false
       ∧ parenDuoTest (lowerNameOf catLuna) = false
       ∧ parenEnAmpTest (lowerNameOf catLuna) = false
       ∧ isDuoAdoption catLuna = false) :=
  ⟨⟨by decide, duo_marker_detection.1 catBoris (by decide)⟩,
   ⟨by decide, by decide, by decide,
    duo_marker_detection.2 catLuna (by decide) (by decide) (by decide)⟩⟩

/-! ## Claim C10: committing to the novelty store -/

/-- C10: persisting an empty id list returns before any store operation,
leaving membership and remaining TTL untouched, while persisting a
non-empty list inserts the ids in one batch and resets the TTL to 90 days. -/
theorem persist_empty_is_noop (store : Store) :
    persistCatIds [] store = store
    ∧ (∀ ids : List String, ids ≠ [] →
        persistCatIds ids store =
          { seen := saddList store.seen ids, ttlSeconds := some EXPIRE_SECONDS }) := by
  constructor
  · rfl
  · intro ids h
    unfold persistCatIds
    rw [if_neg h]

/-- C10 witness: evaluated on a store with a member and a short TTL. -/
theorem persist_empty_is_noop_witness :
    persistCatIds [] storeC10 = storeC10
    ∧ persistCatIds ["9"] storeC10 =
        { seen := saddList storeC10.seen ["9"], ttlSeconds := some EXPIRE_SECONDS } :=
  ⟨(persist_empty_is_noop storeC10).1,
   (persist_empty_is_noop storeC10).2 ["9"] (by decide)⟩

/-! ## Claim C8: notifier retry behavior on a failing message -/

/-! ## Claim C2: idempotent re-run -/

theorem saddList_cons (s : List String) (i : String) (is : List String) :
    saddList s (i :: is) = saddList (if s.contains i then s else s ++ [i]) is := rfl

theorem mem_saddList (ids : List String) :
    ∀ (s : List String) (x : String), x ∈ saddList s ids ↔ x ∈ s ∨ x ∈ ids := by
  induction ids with
  | nil =>
    intro s x
    simp [saddList]
  | cons i is ih =>
    intro s x
    rw [saddList_cons]
    by_cases hc : s.contains i = true
    · rw [if_pos hc, ih]
      have hi : i ∈ s := List.elem_iff.1 hc
      simp only [List.mem_cons]
      constructor
      · rintro (h | h)
        · exact Or.inl h
        · exact Or.inr (Or.inr h)
      · rintro (h | rfl | h)
        · exact Or.inl h
        · exact Or.inl hi
        · exact Or.inr h
    · rw [if_neg hc, ih]
      simp only [List.mem_append, List.mem_singleton, List.mem_cons]
      tauto

/-- C2: when two consecutive runs extract the same eligible record set,
the first run commits every id it reported as new, so after it every
extracted id is a member of the seen set, the second run's novelty probe
returns no record, and the second run reports zero new records. -/
theorem second_run_zero_new (env env' : Env) (store : Store)
    (p p' : PageInfo) (cats : List Cat)
    (h1 : collectCats env = some (p, cats))
    (h2 : collectCats env' = some (p', cats)) :
    (∀ c ∈ cats, (handlerModel env store).store.seen.contains c.id = true)
    ∧ getNewCats cats (handlerModel env store).store = []
    ∧ (handlerModel env' (handlerModel env store).store).result.newCount = 0 := by
  have key : ∀ c ∈ cats, (handlerModel env store).store.seen.contains c.id = true := by
    intro c hc
    simp only [handlerModel, h1]
    by_cases hcats : cats = []
    · subst hcats
      cases hc
    · rw [if_neg hcats]
      by_cases hn : getNewCats cats store = []
      · rw [if_pos hn]
        show store.seen.contains c.id = true
        simpa using List.filter_eq_nil_iff.1 hn c hc
      · rw [if_neg hn]
        have hmap : (getNewCats cats store).map (fun c => c.id) ≠ [] := by
          intro habs
          exact hn (List.map_eq_nil_iff.1 habs)
        simp only [persistCatIds, if_neg hmap]
        apply List.elem_iff.2
        rw [mem_saddList]
        by_cases hm : store.seen.contains c.id = true
        · exact Or.inl (List.elem_iff.1 hm)
        · right
          apply List.mem_map_of_mem
          apply List.mem_filter.2
          refine ⟨hc, ?_⟩
          cases hq : store.seen.contains c.id
          · rfl
          · exact absurd hq hm
  have hzero : getNewCats cats (handlerModel env store).store = [] := by
    apply List.filter_eq_nil_iff.2
    intro c hc
    rw [key c hc]
    simp
  refine ⟨key, hzero, ?_⟩
  generalize hst : (handlerModel env store).store = st1 at hzero
  simp only [handlerModel, h2]
  by_cases hcats : cats = []
  · rw [if_pos hcats]
  · rw [if_neg hcats, if_pos hzero]

/-- C2 witness: two runs against the unchanged fixture listing; the second
reports zero new records. -/
theorem second_run_zero_new_witness :
    collectCats envC2 = some (pC2, catsC2)
    ∧ (handlerModel envC2 (handlerModel envC2 storeC2).store).result.newCount = 0 :=
  ⟨by decide,
   (second_run_zero_new envC2 envC2 storeC2 pC2 pC2 catsC2 (by decide) (by decide)).2.2⟩

/-! ## Claim C3: first-page fetch failure is fatal and writes nothing -/

/-- C3: when the first-page fetch fails and its single retry also fails,
the run lands in the top-level catch: it returns the structured status-500
error result, performs no notification, and leaves the store (membership
and TTL) exactly as it was. -/
theorem first_page_failure_is_fatal (env : Env) (store : Store)
    (h : fetchListing env 1 = none) :
    handlerModel env store = ⟨errorResult, store, []⟩
    ∧ errorResult.status = 500 ∧ errorResult.ok = false := by
  refine ⟨?_, rfl, rfl⟩
  simp only [handlerModel, collectCats, h]

/-- C3 witness: evaluated with an always-failing fetch and a store holding
prior state. -/
theorem first_page_failure_is_fatal_witness :
    fetchListing envC3 1 = none
    ∧ (handlerModel envC3 storeC3 = ⟨errorResult, storeC3, []⟩
       ∧ errorResult.status = 500 ∧ errorResult.ok = false) :=
  ⟨rfl, first_page_failure_is_fatal envC3 storeC3 rfl⟩

/-! ## Claim C1: a later-page fetch failure aborts the run -/

/-- C1 counterexample: the first page succeeds, yields an eligible record
and a 4-page plan, the page-2 fetch fails after its retry — and the run
aborts with the status-500 error result, empty notification trace and
untouched store, instead of proceeding with the partial record set. -/
theorem later_page_failure_aborts_cex :
    fetchListing envC1 1 = some pageC1
    ∧ (extractTotalCats pageC1).totalPages = 4
    ∧ eligibleOf (extractCats pageC1.elements) ≠ []
    ∧ fetchListing envC1 2 = none
    ∧ handlerModel envC1 storeC1 = ⟨errorResult, storeC1, []⟩ := by
  refine ⟨rfl, by decide, by decide, rfl, by decide⟩

/-- C1 amended: if fetching any page after the first fails (after its
single retry), the thrown error propagates to the handler's top-level
catch: the run aborts with the run-level error result, no filtering,
novelty check, notification or commit happens, and the store is unchanged. -/
theorem later_page_failure_aborts (env : Env) (store : Store) (pg : PageData)
    (h1 : fetchListing env 1 = some pg)
    (h2 : fetchSeq env (List.range' 2 ((extractTotalCats pg).totalPages - 1)) = none) :
    handlerModel env store = ⟨errorResult, store, []⟩ := by
  simp only [handlerModel, collectCats, h1, h2]

/-- C1 witness for the amended claim, at the concrete aborting run. -/
theorem later_page_failure_aborts_witness :
    fetchListing envC1 1 = some pageC1
    ∧ fetchSeq envC1 (List.range' 2 ((extractTotalCats pageC1).totalPages - 1)) = none
    ∧ handlerModel envC1 storeC1 = ⟨errorResult, storeC1, []⟩ :=
  ⟨rfl, by decide, later_page_failure_aborts envC1 storeC1 pageC1 rfl (by decide)⟩

/-! ## Claim C7: delivery failures never block other messages or commit -/

theorem attemptIds_cons_attempt (id : String) (o : DeliverOutcome) (evs : List NotifyEvent) :
    attemptIds (NotifyEvent.attempt id o :: evs) = id :: attemptIds evs := rfl

theorem attemptIds_cons_slept (ms : Nat) (evs : List NotifyEvent) :
    attemptIds (NotifyEvent.slept ms :: evs) = attemptIds evs := rfl

theorem attemptIds_append (a b : List NotifyEvent) :
    attemptIds (a ++ b) = attemptIds a ++ attemptIds b := by
  simp [attemptIds, List.filterMap_append]

theorem attemptIds_notifyGo (deliver : Nat → DeliverOutcome) :
    ∀ (cs : List Cat) (idx : Nat),
      attemptIds (notifyGo deliver idx cs) = cs.map (fun c => c.id) := by
  intro cs
  induction cs with
  | nil => intro idx; rfl
  | cons c cs ih =>
    intro idx
    cases hd : deliver idx with
    | thrown =>
      simp only [notifyGo, hd]
      rw [attemptIds_cons_attempt, ih, List.map_cons]
    | delivered =>
      simp only [notifyGo, hd]
      rw [attemptIds_cons_attempt, attemptIds_cons_slept, ih, List.map_cons]
    | httpError =>
      simp only [notifyGo, hd]
      rw [attemptIds_cons_attempt, attemptIds_cons_slept, ih, List.map_cons]

theorem attemptIds_notifyTelegram (deliver : Nat → DeliverOutcome) (newCats : List Cat) :
    attemptIds (notifyTelegram deliver newCats)
      = (newCats.take MAX_CATS_TO_NOTIFY).map (fun c => c.id) := by
  unfold notifyTelegram
  rw [attemptIds_append, attemptIds_notifyGo]
  by_cases h : 0 < newCats.length - (newCats.take MAX_CATS_TO_NOTIFY).length
  · rw [if_pos h]
    simp [attemptIds]
  · rw [if_neg h]
    simp [attemptIds]

/-- C7: whatever the per-message delivery outcomes (including every send
failing), once the run has new eligible records the notifier attempts one
delivery for every record in the capped batch, the run reports a positive
new count, and all new record ids are committed to the store. -/
theorem delivery_failure_never_blocks (env : Env) (store : Store)
    (p : PageInfo) (cats : List Cat)
    (hc : collectCats env = some (p, cats))
    (hcne : cats ≠ [])
    (hnew : getNewCats cats store ≠ []) :
    attemptIds (handlerModel env store).notifyTrace
      = ((getNewCats cats store).take MAX_CATS_TO_NOTIFY).map (fun c => c.id)
    ∧ (handlerModel env store).store
      = persistCatIds ((getNewCats cats store).map (fun c => c.id)) store
    ∧ (handlerModel env store).result.newCount = (getNewCats cats store).length
    ∧ 0 < (handlerModel env store).result.newCount := by
  simp only [handlerModel, hc]
  rw [if_neg hcne, if_neg hnew]
  refine ⟨attemptIds_notifyTelegram env.deliver (getNewCats cats store), rfl, rfl, ?_⟩
  exact List.length_pos.2 hnew

/-- C7 witness: with every delivery throwing, the single new record is
still attempted, the run reports one new record, and its id is committed. -/
theorem delivery_failure_never_blocks_witness :
    (collectCats envC7 = some (pC7, catsC7)
      ∧ catsC7 ≠ [] ∧ getNewCats catsC7 storeC7 ≠ [])
    ∧ (attemptIds (handlerModel envC7 storeC7).notifyTrace
        = ((getNewCats catsC7 storeC7).take MAX_CATS_TO_NOTIFY).map (fun c => c.id)
       ∧ (handlerModel envC7 storeC7).store
        = persistCatIds ((getNewCats catsC7 storeC7).map (fun c => c.id)) storeC7
       ∧ (handlerModel envC7 storeC7).result.newCount = (getNewCats catsC7 storeC7).length
       ∧ 0 < (handlerModel envC7 storeC7).result.newCount) :=
  ⟨⟨by decide, by decide, by decide⟩,
   delivery_failure_never_blocks envC7 storeC7 pC7 catsC7 (by decide) (by decide) (by decide)⟩

/-! ## Claim C8: no per-message retry in the current notifier -/

/-- C8: at the failing input (one new record whose Telegram send throws a
transient network error) the current notifier performs exactly one send
attempt for the record, emits no 2-second backoff sleep, and moves on: the
retryCount parameter is never consulted, so no per-message retry exists. -/
theorem no_retry_on_message_failure :
    notifyTelegram (fun _ => DeliverOutcome.thrown) [catC8]
      = [NotifyEvent.attempt "555" DeliverOutcome.thrown]
    ∧ (attemptIds (notifyTelegram (fun _ => DeliverOutcome.thrown) [catC8])).length = 1
    ∧ (notifyTelegram (fun _ => DeliverOutcome.thrown) [catC8]).count (NotifyEvent.slept 2000)
        = 0 := by
  refine ⟨by decide, by decide, by decide⟩

end CatSearcher
